import Mathlib

/-
Verification of the tweet-scraping pipeline (src/main.py,
class TwitterSentimentScraper) against its design specification.

Shallow embedding notes:
* A DOM post element (`timeline-item`) is a `TweetElem`: each required
  sub-element lookup (`find_element`, which raises when absent) becomes an
  `Option String`; `find_elements` for the stats (which never raises)
  becomes a plain `List String`; the guarded avatar lookup becomes an
  `Option String` directly.
* The translation and classification collaborators are abstract functions
  returning `Option` (`none` models the collaborator raising).  The
  `ThreadPoolExecutor.submit(...).result()` pair in the source waits
  synchronously for its own submission and re-raises its exception, so it
  embeds as a direct call to `classify`.
* Python `str.strip` is `pyStrip`, `str.isascii` is `strIsAscii`.
* `logger.error` / `logger.warning` calls become `LogEvent` values threaded
  through the results, so "skipped and logged" is provable.
* The browser is a stream of pages `Nat → Page`: page 0 is the state after
  the initial load; a successful `show-more` click advances the index.
  `hasShowMore` models whether `find_element (show-more)` succeeds;
  `clickOk` models whether `execute_script` (the click) succeeds.
* The initial `driver.get` + wait (lines 65-85) is a `LoadOutcome`; the
  three `except` arms each return `[]` without touching the session.
* The long-lived `Session` (driver + pipeline + translator + executor) is
  reduced to its liveness: `scrape_tweets` never closes it; only `close`
  does.
-/

/-- Log events emitted by the scraper (one per `logger.*` call site that the
claims mention). -/
inductive LogEvent where
  | timeoutWarn        -- line 75: timeout loading the search page
  | loadErrorLog       -- line 79: WebDriverException loading the page
  | unexpectedErrorLog -- line 83: any other error loading the page
  | noTweetsWarn       -- line 94: no `timeline-item` elements on the page
  | translateError     -- line 118: translation collaborator raised
  | extractError       -- line 144: per-post extraction/enrichment raised
  | noMoreButton       -- line 162: `show-more` control absent
  | clickError         -- line 165: error clicking `show-more`
deriving DecidableEq

/-- A raw `timeline-item` DOM element.  `none` in a required field models
`find_element` raising `NoSuchElementException` for that sub-element. -/
structure TweetElem where
  tweet_link : Option String    -- `.tweet-link` href  (required)
  username : Option String      -- `.username` text    (required)
  fullname : Option String      -- `.fullname` text    (required)
  tweet_date : Option String    -- `.tweet-date` text  (required)
  tweet_content : Option String -- `.tweet-content` text (required)
  stats : List String           -- `.tweet-stat` texts (find_elements, 0..n)
  avatar : Option String        -- `.avatar.round` src (guarded, optional)
deriving DecidableEq

/-- A fully extracted record, mirroring the 13-key dict appended to
`tweet_data` at lines 128-142. -/
structure Tweet where
  tweet_url : String
  username : String
  full_name : String
  tweet_date : String
  tweet_content : String
  trans_content : String
  sentiment : String
  sentiment_score : Rat
  comments : String
  retweets : String
  quotes : String
  likes : String
  image_url : Option String
deriving DecidableEq

/-- The external enrichment collaborators.  `none` models the collaborator
raising an exception. -/
structure Collaborators where
  translate : String → Option String
  classify : String → Option (String × Rat)

/-- Python `str.isascii`: every code point is below 128 (true on ""). -/
def strIsAscii (s : String) : Bool :=
  s.data.all (fun c => c.toNat < 128)

/-- Python `str.strip`: drop whitespace from both ends. -/
def pyStrip (s : String) : String :=
  String.mk (((s.data.dropWhile Char.isWhitespace).reverse.dropWhile
      Char.isWhitespace).reverse)

/-- Line 105-107: `stats[i].text.strip() if i < len(stats) else "0"`. -/
def statOrZero (stats : List String) (i : Nat) : String :=
  match stats.get? i with
  | some s => pyStrip s
  | none => "0"

/-- Lines 114-121: conditional translation with best-effort fallback.
Returns the `trans_content` together with the log entries emitted. -/
def transContent (translate : String → Option String) (content : String) :
    String × List LogEvent :=
  if strIsAscii content = false then
    match translate content with
    | some t => (t, [])
    | none => (content, [LogEvent.translateError])
  else (content, [])

/-- Instrumented copy of `transContent` that additionally records every
input passed to the translation collaborator (used to state that the
collaborator is never invoked on ASCII input). -/
def transContentCalls (translate : String → Option String) (content : String) :
    (String × List LogEvent) × List String :=
  if strIsAscii content = false then
    match translate content with
    | some t => ((t, []), [content])
    | none => ((content, [LogEvent.translateError]), [content])
  else ((content, []), [])

/-- Lines 97-145: the body of the per-post `try`.  A `none` required field
raises before any later step runs; a classification failure raises after
translation; both are caught by the `except` at line 143 which logs
`extractError` and appends nothing. -/
def extractOne (C : Collaborators) (t : TweetElem) :
    Option Tweet × List LogEvent :=
  match t.tweet_link, t.username, t.fullname, t.tweet_date, t.tweet_content with
  | some link, some user, some name, some date, some content =>
    let tweet_content := pyStrip content
    let tc := transContent C.translate tweet_content
    match C.classify tc.1 with
    | some r =>
      (some {
        tweet_url := link
        username := pyStrip user
        full_name := pyStrip name
        tweet_date := pyStrip date
        tweet_content := tweet_content
        trans_content := tc.1
        sentiment := r.1
        sentiment_score := r.2
        comments := statOrZero t.stats 0
        retweets := statOrZero t.stats 1
        quotes := statOrZero t.stats 2
        likes := statOrZero t.stats 3
        image_url := t.avatar }, tc.2)
    | none => (none, tc.2 ++ [LogEvent.extractError])
  | _, _, _, _, _ => (none, [LogEvent.extractError])

/-- The `for tweet in tweets` loop (lines 96-145): posts are appended in
element order; each element contributes at most one record. -/
def extractBatch (C : Collaborators) : List TweetElem → List Tweet × List LogEvent
  | [] => ([], [])
  | t :: ts =>
    let r := extractOne C t
    let rest := extractBatch C ts
    (r.1.toList ++ rest.1, r.2 ++ rest.2)

/-- Lines 89-149: `extract_tweets` — warn when the page holds no post
elements, then process each element independently. -/
def extract_tweets (C : Collaborators) (tweets : List TweetElem) :
    List Tweet × List LogEvent :=
  ((extractBatch C tweets).1,
   (if tweets.isEmpty then [LogEvent.noTweetsWarn] else []) ++
     (extractBatch C tweets).2)

/-- One browser page state: its post elements, whether the `show-more`
control is present (line 157), and whether clicking it succeeds (line 158). -/
structure Page where
  tweets : List TweetElem
  hasShowMore : Bool
  clickOk : Bool

/-- Outcome of the initial page load and timeline wait (lines 65-85). -/
inductive LoadOutcome where
  | ok
  | timeout     -- TimeoutException arm, line 74
  | loadError   -- WebDriverException arm, line 78
  | otherError  -- generic Exception arm, line 82
deriving DecidableEq

/-- The long-lived scraper session; `scrape_tweets` never tears it down. -/
structure Session where
  alive : Bool
deriving DecidableEq

/-- `close` (lines 173-181): the only operation that ends the session. -/
def closeSession (_ : Session) : Session :=
  { alive := false }

/-- Accumulated scrape state: `tweet_data`, the emitted logs, and how many
times `extract_tweets` has been invoked. -/
structure ScrapeAcc where
  data : List Tweet
  logs : List LogEvent
  extracts : Nat
deriving DecidableEq

/-- Lines 155-167: `for _ in range(num_pages)`.  Current page index `i`;
absent `show-more` breaks with a warning, a click error breaks with an
error log, a successful click advances to page `i+1` and extracts it. -/
def scrape_loop (C : Collaborators) (pages : Nat → Page) :
    Nat → Nat → ScrapeAcc → ScrapeAcc
  | 0, _, acc => acc
  | fuel + 1, i, acc =>
    if (pages i).hasShowMore then
      if (pages i).clickOk then
        let r := extract_tweets C (pages (i + 1)).tweets
        scrape_loop C pages fuel (i + 1)
          ⟨acc.data ++ r.1, acc.logs ++ r.2, acc.extracts + 1⟩
      else ⟨acc.data, acc.logs ++ [LogEvent.clickError], acc.extracts⟩
    else ⟨acc.data, acc.logs ++ [LogEvent.noMoreButton], acc.extracts⟩

/-- Lines 60-171: `scrape_tweets`.  A failed initial load returns `[]`
without touching the session; otherwise extract page 0 (line 151) and run
the pagination loop with budget `num_pages` (default 2 in the source). -/
def scrape_tweets (C : Collaborators) (pages : Nat → Page)
    (load : LoadOutcome) (num_pages : Nat) (s : Session) :
    ScrapeAcc × Session :=
  match load with
  | LoadOutcome.ok =>
    let r := extract_tweets C (pages 0).tweets
    (scrape_loop C pages num_pages 0 ⟨r.1, r.2, 1⟩, s)
  | LoadOutcome.timeout => (⟨[], [LogEvent.timeoutWarn], 0⟩, s)
  | LoadOutcome.loadError => (⟨[], [LogEvent.loadErrorLog], 0⟩, s)
  | LoadOutcome.otherError => (⟨[], [LogEvent.unexpectedErrorLog], 0⟩, s)

/-- The records one page contributes, in DOM order. -/
def pagePosts (C : Collaborators) (pg : Page) : List Tweet :=
  pg.tweets.filterMap (fun t => (extractOne C t).1)

/-- Number of successful `show-more` advances the loop performs starting at
page `i` with `fuel` iterations left. -/
def pagesAdvanced (pages : Nat → Page) : Nat → Nat → Nat
  | 0, _ => 0
  | fuel + 1, i =>
    if (pages i).hasShowMore && (pages i).clickOk then
      pagesAdvanced pages fuel (i + 1) + 1
    else 0

/-- A required sub-element is absent from the post element. -/
def requiredMissing (t : TweetElem) : Prop :=
  t.tweet_link = none ∨ t.username = none ∨ t.fullname = none ∨
    t.tweet_date = none ∨ t.tweet_content = none

/-- The pages the loop visits after page 0: each successful `show-more`
click (control present and click succeeded) visits the next page. -/
def visitedPages (pages : Nat → Page) : Nat → Nat → List Page
  | 0, _ => []
  | fuel + 1, i =>
    if (pages i).hasShowMore && (pages i).clickOk then
      pages (i + 1) :: visitedPages pages fuel (i + 1)
    else []

/-- Collaborator fixture: translation echoes its input, classification
always succeeds. -/
def Cid : Collaborators :=
  ⟨fun s => some s, fun _ => some ("neutral", 1)⟩

/-- Collaborator fixture: translation always fails, classification always
succeeds. -/
def Ctfail : Collaborators :=
  ⟨fun _ => none, fun _ => some ("neutral", 1)⟩

/-- Collaborator fixture: translation echoes its input, classification
always fails. -/
def Ccfail : Collaborators :=
  ⟨fun s => some s, fun _ => none⟩

/-- Fixture: a complete ASCII post element with two stat sub-elements. -/
def elemA : TweetElem :=
  ⟨some "https://n/a/1", some "@a", some "Ann", some "d1", some "hello",
   ["1", "2"], none⟩

/-- Fixture: a post element whose required link sub-element is missing. -/
def elemBad : TweetElem :=
  ⟨none, some "@b", some "Bo", some "d2", some "x", [], none⟩

/-- Fixture: a complete post element with non-ASCII body text. -/
def elemNonAscii : TweetElem :=
  ⟨some "https://n/c/3", some "@c", some "Cy", some "d3", some "héllo",
   [], none⟩

/-- Fixture: the record `extractOne Cid elemA` produces. -/
def tweetA : Tweet :=
  ⟨"https://n/a/1", "@a", "Ann", "d1", "hello", "hello", "neutral", 1,
   "1", "2", "0", "0", none⟩

/-- Fixture: every page is empty and keeps offering `show-more`. -/
def pagesMore : Nat → Page := fun _ => ⟨[], true, true⟩

/-- Fixture: every page holds `elemA` and no `show-more` control. -/
def pagesNoMore : Nat → Page := fun _ => ⟨[elemA], false, true⟩

/-- Fixture: every page holds `elemNonAscii` and no `show-more` control. -/
def pagesNonAscii : Nat → Page := fun _ => ⟨[elemNonAscii], false, true⟩

/-- Fixture: a live session. -/
def sLive : Session := ⟨true⟩

/-- Processing a concatenation of elements processes each part in order. -/
theorem extractBatch_append (C : Collaborators) (l1 l2 : List TweetElem) :
    extractBatch C (l1 ++ l2) =
      ((extractBatch C l1).1 ++ (extractBatch C l2).1,
       (extractBatch C l1).2 ++ (extractBatch C l2).2) := by
  induction l1 with
  | nil => simp [extractBatch]
  | cons t ts ih => simp [extractBatch, ih]

/-- The records a batch yields are the per-element results in DOM order. -/
theorem extractBatch_fst (C : Collaborators) (ts : List TweetElem) :
    (extractBatch C ts).1 = ts.filterMap (fun t => (extractOne C t).1) := by
  induction ts with
  | nil => simp [extractBatch]
  | cons t ts ih =>
    cases h : (extractOne C t).1 <;>
      simp [extractBatch, h, ih, List.filterMap_cons]

/-- The record list of `extract_tweets` equals the in-order filterMap. -/
theorem extract_tweets_fst (C : Collaborators) (ts : List TweetElem) :
    (extract_tweets C ts).1 = ts.filterMap (fun t => (extractOne C t).1) := by
  simp [extract_tweets, extractBatch_fst]

/-- ASCII content skips the translation branch entirely. -/
theorem transContent_ascii (tr : String → Option String) (s : String)
    (h : strIsAscii s = true) : transContent tr s = (s, []) := by
  simp [transContent, h]

/-- Shape of any successfully extracted record: its sentiment fields come
from a successful classification of exactly its `trans_content`, ASCII
originals pass through untranslated, and the four count fields are filled
positionally from the stat list. -/
theorem extractOne_shape (C : Collaborators) (t : TweetElem) (p : Tweet)
    (l : List LogEvent) (h : extractOne C t = (some p, l)) :
    C.classify p.trans_content = some (p.sentiment, p.sentiment_score) ∧
    (strIsAscii p.tweet_content = true → p.trans_content = p.tweet_content) ∧
    p.comments = statOrZero t.stats 0 ∧ p.retweets = statOrZero t.stats 1 ∧
    p.quotes = statOrZero t.stats 2 ∧ p.likes = statOrZero t.stats 3 := by
  obtain ⟨link, user, name, date, content, stats, avatar⟩ := t
  cases link <;> cases user <;> cases name <;> cases date <;> cases content <;>
    simp [extractOne] at h
  case some.some.some.some.some a b c d e =>
    rcases hc : C.classify (transContent C.translate (pyStrip e)).1 with _ | r
    · simp [hc] at h
    · simp [hc] at h
      obtain ⟨hp, hl⟩ := h
      subst hp
      refine ⟨?_, ?_, rfl, rfl, rfl, rfl⟩
      · simpa using hc
      · intro ha
        exact congrArg Prod.fst (transContent_ascii C.translate _ ha)

/-- Each loop iteration performs at most one extraction. -/
theorem scrape_loop_extracts_le (C : Collaborators) (pages : Nat → Page) :
    ∀ fuel i acc,
      (scrape_loop C pages fuel i acc).extracts ≤ acc.extracts + fuel := by
  intro fuel
  induction fuel with
  | zero => intro i acc; simp [scrape_loop]
  | succ n ih =>
    intro i acc
    cases h1 : (pages i).hasShowMore with
    | false => simp [scrape_loop, h1]
    | true =>
      cases h2 : (pages i).clickOk with
      | false => simp [scrape_loop, h1, h2]
      | true =>
        simp only [scrape_loop, h1, h2, if_true]
        have h3 := ih (i + 1)
          ⟨acc.data ++ (extract_tweets C (pages (i + 1)).tweets).1,
           acc.logs ++ (extract_tweets C (pages (i + 1)).tweets).2,
           acc.extracts + 1⟩
        simp only [ScrapeAcc.mk.injEq] at h3
        omega

/-- An absent pagination control stops the loop at once: only the warning
log is appended, the data and extraction count are untouched. -/
theorem scrape_loop_noMore (C : Collaborators) (pages : Nat → Page)
    (fuel i : Nat) (acc : ScrapeAcc) (h : (pages i).hasShowMore = false) :
    scrape_loop C pages (fuel + 1) i acc =
      ⟨acc.data, acc.logs ++ [LogEvent.noMoreButton], acc.extracts⟩ := by
  simp [scrape_loop, h]

/-- The loop appends exactly the per-page record lists of the pages it
visits, in visit order. -/
theorem scrape_loop_data (C : Collaborators) (pages : Nat → Page) :
    ∀ fuel i acc, (scrape_loop C pages fuel i acc).data =
      acc.data ++ ((visitedPages pages fuel i).map (pagePosts C)).flatten := by
  intro fuel
  induction fuel with
  | zero => intro i acc; simp [scrape_loop, visitedPages]
  | succ n ih =>
    intro i acc
    cases h1 : (pages i).hasShowMore with
    | false => simp [scrape_loop, visitedPages, h1]
    | true =>
      cases h2 : (pages i).clickOk with
      | false => simp [scrape_loop, visitedPages, h1, h2]
      | true =>
        simp only [scrape_loop, h1, h2, if_true]
        rw [ih]
        simp [visitedPages, h1, h2, extract_tweets_fst, pagePosts]

/-- The visited pages are exactly the consecutively indexed pages after the
current one: pagination is strictly sequential. -/
theorem visitedPages_eq_range (pages : Nat → Page) :
    ∀ fuel i, visitedPages pages fuel i =
      (List.range (pagesAdvanced pages fuel i)).map
        (fun j => pages (i + 1 + j)) := by
  intro fuel
  induction fuel with
  | zero => intro i; simp [visitedPages, pagesAdvanced]
  | succ n ih =>
    intro i
    cases h : (pages i).hasShowMore && (pages i).clickOk with
    | false => simp [visitedPages, pagesAdvanced, h]
    | true =>
      simp only [visitedPages, pagesAdvanced, h, if_true]
      rw [ih, List.range_succ_eq_map]
      simp only [List.map_cons, List.map_map]
      congr 1
      apply List.map_congr_left
      intro a _
      simp only [Function.comp_apply]
      congr 1
      omega

/-- Every record a page contributes comes from some element of that page. -/
theorem pagePosts_mem (C : Collaborators) (pg : Page) (p : Tweet)
    (hp : p ∈ pagePosts C pg) : ∃ t, (extractOne C t).1 = some p := by
  simp only [pagePosts, List.mem_filterMap] at hp
  obtain ⟨t, _, ht⟩ := hp
  exact ⟨t, ht⟩

/-- Every record in the final result set was produced by a successful
`extractOne` on some page element. -/
theorem scrape_data_mem (C : Collaborators) (pages : Nat → Page)
    (load : LoadOutcome) (n : Nat) (s : Session) (p : Tweet)
    (hp : p ∈ (scrape_tweets C pages load n s).1.data) :
    ∃ t, (extractOne C t).1 = some p := by
  cases load with
  | ok =>
    simp only [scrape_tweets] at hp
    rw [scrape_loop_data] at hp
    simp only [List.mem_append] at hp
    rcases hp with hp | hp
    · rw [extract_tweets_fst] at hp
      simp only [List.mem_filterMap] at hp
      obtain ⟨t, _, ht⟩ := hp
      exact ⟨t, ht⟩
    · simp only [List.mem_flatten, List.mem_map] at hp
      obtain ⟨l, ⟨pg, hpg, rfl⟩, hpl⟩ := hp
      exact pagePosts_mem C pg p hpl
  | timeout => simp [scrape_tweets] at hp
  | loadError => simp [scrape_tweets] at hp
  | otherError => simp [scrape_tweets] at hp

/-- C1 counterexample: with the default page budget 2, a pagination control
present on every page, and clicks succeeding, the pipeline invokes page
extraction 3 times (the unconditional call at line 151 plus one per loop
iteration), exceeding the claimed total bound of 2. -/
theorem C1_budget_counterexample :
    ¬ ((scrape_tweets Cid pagesMore LoadOutcome.ok 2 sLive).1.extracts ≤ 2) := by
  decide

/-- C1 (amended): the pipeline invokes page extraction at most
`num_pages + 1` times in total — one unconditional initial extraction plus
at most `num_pages` inside the pagination loop — and the loop stops
immediately, appending only the warning log and raising no error, whenever
the current page lacks the load-more control. -/
theorem C1_extraction_budget (C : Collaborators) (pages : Nat → Page)
    (n : Nat) (s : Session) :
    (scrape_tweets C pages LoadOutcome.ok n s).1.extracts ≤ n + 1 ∧
    ∀ fuel i acc, (pages i).hasShowMore = false →
      scrape_loop C pages (fuel + 1) i acc =
        ⟨acc.data, acc.logs ++ [LogEvent.noMoreButton], acc.extracts⟩ := by
  constructor
  · simp only [scrape_tweets]
    have h := scrape_loop_extracts_le C pages n 0
      ⟨(extract_tweets C (pages 0).tweets).1,
       (extract_tweets C (pages 0).tweets).2, 1⟩
    simp only [ScrapeAcc.mk.injEq] at h
    omega
  · intro fuel i acc h
    exact scrape_loop_noMore C pages fuel i acc h

/-- C1 witness: the amended bound and the early stop hold on concrete
inputs. -/
theorem C1_extraction_budget_witness :
    (scrape_tweets Cid pagesMore LoadOutcome.ok 2 sLive).1.extracts ≤ 3 ∧
    scrape_loop Cid pagesNoMore 1 0 ⟨[], [], 0⟩ =
      ⟨[], [] ++ [LogEvent.noMoreButton], 0⟩ :=
  ⟨(C1_extraction_budget Cid pagesMore 2 sLive).1,
   (C1_extraction_budget Cid pagesNoMore 2 sLive).2 0 0 ⟨[], [], 0⟩ rfl⟩

/-- C2: when the sentiment-classification call fails for a post whose
required fields are all present, the failure is surfaced as the per-post
error log of line 144, that post contributes no record — so it is neither
silently dropped (the skip is logged) nor ever included without sentiment
fields (a record is only appended together with a successful classification
result) — and the surrounding batch is unaffected. -/
theorem C2_classify_failure_surfaced (C : Collaborators)
    (pre suf : List TweetElem) (t : TweetElem)
    (link user name date content : String)
    (h1 : t.tweet_link = some link) (h2 : t.username = some user)
    (h3 : t.fullname = some name) (h4 : t.tweet_date = some date)
    (h5 : t.tweet_content = some content)
    (hc : C.classify (transContent C.translate (pyStrip content)).1 = none) :
    extractOne C t =
      (none, (transContent C.translate (pyStrip content)).2 ++
        [LogEvent.extractError]) ∧
    (extractBatch C (pre ++ t :: suf)).1 =
      (extractBatch C pre).1 ++ (extractBatch C suf).1 ∧
    LogEvent.extractError ∈ (extractBatch C (pre ++ t :: suf)).2 := by
  obtain ⟨l0, u0, n0, d0, c0, stats, avatar⟩ := t
  simp only at h1 h2 h3 h4 h5
  subst h1 h2 h3 h4 h5
  have he : extractOne C (⟨some link, some user, some name, some date,
      some content, stats, avatar⟩ : TweetElem) =
      (none, (transContent C.translate (pyStrip content)).2 ++
        [LogEvent.extractError]) := by
    simp [extractOne, hc]
  refine ⟨he, ?_, ?_⟩
  · rw [extractBatch_append]
    simp [extractBatch, he]
  · rw [extractBatch_append]
    simp [extractBatch, he]

/-- C2 witness: concrete failing classifier on a complete element. -/
theorem C2_classify_failure_surfaced_witness :
    extractOne Ccfail elemA =
      (none, (transContent Ccfail.translate (pyStrip "hello")).2 ++
        [LogEvent.extractError]) ∧
    (extractBatch Ccfail ([] ++ elemA :: [])).1 =
      (extractBatch Ccfail []).1 ++ (extractBatch Ccfail []).1 ∧
    LogEvent.extractError ∈ (extractBatch Ccfail ([] ++ elemA :: [])).2 :=
  C2_classify_failure_surfaced Ccfail [] [] elemA
    "https://n/a/1" "@a" "Ann" "d1" "hello" rfl rfl rfl rfl rfl rfl

/-- C3 counterexample: a post with non-ASCII body text whose translation
fails but whose classification succeeds reaches the result set with a
non-ASCII `trans_content` — exactly that text was submitted to the
classifier, refuting the ASCII-safety part of the claim. -/
theorem C3_ascii_counterexample :
    ¬ (∀ p ∈ (scrape_tweets Ctfail pagesNonAscii LoadOutcome.ok 0 sLive).1.data,
        strIsAscii p.trans_content = true) := by
  decide

/-- C3 (amended): every Post that reaches the result set has non-null
sentiment fields obtained from a successful classification of exactly its
`trans_content`; that text is guaranteed ASCII only when the original text
was ASCII (in which case it equals the original) — after a translation
failure the non-ASCII original is what gets classified. -/
theorem C3_result_enrichment (C : Collaborators) (pages : Nat → Page)
    (load : LoadOutcome) (n : Nat) (s : Session) :
    ∀ p ∈ (scrape_tweets C pages load n s).1.data,
      C.classify p.trans_content = some (p.sentiment, p.sentiment_score) ∧
      (strIsAscii p.tweet_content = true → p.trans_content = p.tweet_content) := by
  intro p hp
  obtain ⟨t, ht⟩ := scrape_data_mem C pages load n s p hp
  have h : extractOne C t = (some p, (extractOne C t).2) := by
    rw [← ht]
  exact ⟨(extractOne_shape C t p _ h).1, (extractOne_shape C t p _ h).2.1⟩

/-- C3 witness: the amended enrichment invariant on a concrete scrape. -/
theorem C3_result_enrichment_witness :
    Cid.classify tweetA.trans_content =
      some (tweetA.sentiment, tweetA.sentiment_score) ∧
    tweetA.trans_content = tweetA.tweet_content :=
  ⟨(C3_result_enrichment Cid pagesNoMore LoadOutcome.ok 0 sLive tweetA
      (by decide)).1,
   (C3_result_enrichment Cid pagesNoMore LoadOutcome.ok 0 sLive tweetA
      (by decide)).2 (by decide)⟩

/-- C4: for non-ASCII text, failure of the translation collaborator falls
back to `trans_content = tweet_content`, emitting only the
translation-error log; the step returns normally, so no error propagates
from translation alone. -/
theorem C4_translate_fallback (tr : String → Option String) (s : String)
    (h1 : strIsAscii s = false) (h2 : tr s = none) :
    transContent tr s = (s, [LogEvent.translateError]) := by
  simp [transContent, h1, h2]

/-- C4 witness: failing translator on concrete non-ASCII text. -/
theorem C4_translate_fallback_witness :
    transContent (fun _ => none) "héllo" =
      ("héllo", [LogEvent.translateError]) :=
  C4_translate_fallback (fun _ => none) "héllo" (by decide) rfl

/-- C5: for ASCII-only text the translation branch is skipped —
`trans_content` is byte-for-byte the original and the instrumented call log
shows the translation collaborator is never invoked. -/
theorem C5_ascii_no_translation (tr : String → Option String) (s : String)
    (h : strIsAscii s = true) :
    transContent tr s = (s, []) ∧ (transContentCalls tr s).2 = [] := by
  simp [transContent, transContentCalls, h]

/-- C5 witness: concrete ASCII text with an always-failing translator. -/
theorem C5_ascii_no_translation_witness :
    transContent (fun _ => none) "hello" = ("hello", []) ∧
    (transContentCalls (fun _ => none) "hello").2 = [] :=
  C5_ascii_no_translation (fun _ => none) "hello" (by decide)

/-- C6: whenever extraction yields a record, the four count fields are
filled positionally from the stat sub-elements in order, and every slot at
or beyond the available count holds the string "0". -/
theorem C6_stats_positional (C : Collaborators) (t : TweetElem) (p : Tweet)
    (l : List LogEvent) (h : extractOne C t = (some p, l)) :
    p.comments = statOrZero t.stats 0 ∧ p.retweets = statOrZero t.stats 1 ∧
    p.quotes = statOrZero t.stats 2 ∧ p.likes = statOrZero t.stats 3 ∧
    (∀ i (hi : i < t.stats.length),
      statOrZero t.stats i = pyStrip (t.stats.get ⟨i, hi⟩)) ∧
    (∀ i, t.stats.length ≤ i → statOrZero t.stats i = "0") := by
  have hs := extractOne_shape C t p l h
  refine ⟨hs.2.2.1, hs.2.2.2.1, hs.2.2.2.2.1, hs.2.2.2.2.2, ?_, ?_⟩
  · intro i hi
    simp [statOrZero, List.getElem?_eq_getElem hi]
  · intro i hi
    simp [statOrZero, List.getElem?_eq_none hi]

/-- C6 witness: element with two stat sub-elements: slot 0 is filled
positionally, slot 3 defaults to "0". -/
theorem C6_stats_positional_witness :
    tweetA.comments = statOrZero elemA.stats 0 ∧
    statOrZero elemA.stats 3 = "0" :=
  ⟨(C6_stats_positional Cid elemA tweetA [] (by decide)).1,
   (C6_stats_positional Cid elemA tweetA [] (by decide)).2.2.2.2.2 3
     (by decide)⟩

/-- C7: a missing required field makes that single element yield no record
and one per-post error log, while the rest of the page batch is processed
exactly as it would be without the broken element — the batch is never
aborted. -/
theorem C7_missing_field_skips_one (C : Collaborators)
    (pre suf : List TweetElem) (t : TweetElem) (h : requiredMissing t) :
    extractOne C t = (none, [LogEvent.extractError]) ∧
    (extractBatch C (pre ++ t :: suf)).1 =
      (extractBatch C pre).1 ++ (extractBatch C suf).1 ∧
    (extractBatch C (pre ++ t :: suf)).2 =
      (extractBatch C pre).2 ++ LogEvent.extractError ::
        (extractBatch C suf).2 := by
  have he : extractOne C t = (none, [LogEvent.extractError]) := by
    obtain ⟨l0, u0, n0, d0, c0, stats, avatar⟩ := t
    cases l0 <;> cases u0 <;> cases n0 <;> cases d0 <;> cases c0 <;>
      simp_all [extractOne, requiredMissing]
  refine ⟨he, ?_, ?_⟩
  · rw [extractBatch_append]
    simp [extractBatch, he]
  · rw [extractBatch_append]
    simp [extractBatch, he]

/-- C7 witness: an element with a missing link between two complete
elements is skipped and logged; both neighbours are still extracted. -/
theorem C7_missing_field_skips_one_witness :
    extractOne Cid elemBad = (none, [LogEvent.extractError]) ∧
    (extractBatch Cid ([elemA] ++ elemBad :: [elemA])).1 =
      (extractBatch Cid [elemA]).1 ++ (extractBatch Cid [elemA]).1 ∧
    (extractBatch Cid ([elemA] ++ elemBad :: [elemA])).2 =
      (extractBatch Cid [elemA]).2 ++ LogEvent.extractError ::
        (extractBatch Cid [elemA]).2 :=
  C7_missing_field_skips_one Cid [elemA] [elemA] elemBad (by left; rfl)

/-- C8: if the initial page load fails (timeout, load error, or any other
error before the results container appears), the scrape returns an empty
result list with no extraction performed, and the session is returned
untouched for subsequent requests. -/
theorem C8_load_failure_preserves_session (C : Collaborators)
    (pages : Nat → Page) (n : Nat) (s : Session) (load : LoadOutcome)
    (h : load ≠ LoadOutcome.ok) :
    (scrape_tweets C pages load n s).1.data = [] ∧
    (scrape_tweets C pages load n s).1.extracts = 0 ∧
    (scrape_tweets C pages load n s).2 = s := by
  cases load with
  | ok => exact absurd rfl h
  | timeout => exact ⟨rfl, rfl, rfl⟩
  | loadError => exact ⟨rfl, rfl, rfl⟩
  | otherError => exact ⟨rfl, rfl, rfl⟩

/-- C8 witness: a concrete timeout returns no data and the live session. -/
theorem C8_load_failure_preserves_session_witness :
    (scrape_tweets Cid pagesMore LoadOutcome.timeout 2 sLive).1.data = [] ∧
    (scrape_tweets Cid pagesMore LoadOutcome.timeout 2 sLive).1.extracts = 0 ∧
    (scrape_tweets Cid pagesMore LoadOutcome.timeout 2 sLive).2 = sLive :=
  C8_load_failure_preserves_session Cid pagesMore 2 sLive
    LoadOutcome.timeout (by decide)

/-- C9: the result list is the concatenation, in visit order, of the
per-page record lists (page 0 first, then each page reached by a
successful advance); the visited pages are the consecutively indexed pages
1, 2, ... so pagination is strictly sequential; and within a page the
records appear in DOM element order (an order-preserving filterMap). -/
theorem C9_ordering (C : Collaborators) (pages : Nat → Page) (n : Nat)
    (s : Session) :
    (scrape_tweets C pages LoadOutcome.ok n s).1.data =
      ((pages 0 :: visitedPages pages n 0).map (pagePosts C)).flatten ∧
    visitedPages pages n 0 =
      (List.range (pagesAdvanced pages n 0)).map (fun j => pages (1 + j)) ∧
    ∀ ts, (extract_tweets C ts).1 =
      ts.filterMap (fun t => (extractOne C t).1) := by
  refine ⟨?_, ?_, extract_tweets_fst C⟩
  · simp only [scrape_tweets]
    rw [scrape_loop_data]
    simp [extract_tweets_fst, pagePosts]
  · rw [visitedPages_eq_range]

/-- C10: per-element atomicity of the accumulator — processing one more
element either appends exactly the one complete record it produced (whose
sentiment fields come from a successful classification, so all thirteen
fields are populated) or, when any step of that element raised, leaves the
accumulated record list unchanged; no partial record is ever appended. -/
theorem C10_per_post_atomicity (C : Collaborators) (ts : List TweetElem)
    (t : TweetElem) :
    (extractBatch C (ts ++ [t])).1 =
      (extractBatch C ts).1 ++ ((extractOne C t).1).toList ∧
    (∀ p, (extractOne C t).1 = some p →
      C.classify p.trans_content = some (p.sentiment, p.sentiment_score)) ∧
    ((extractOne C t).1 = none →
      (extractBatch C (ts ++ [t])).1 = (extractBatch C ts).1) := by
  have hb : (extractBatch C (ts ++ [t])).1 =
      (extractBatch C ts).1 ++ ((extractOne C t).1).toList := by
    rw [extractBatch_append]
    simp [extractBatch]
  refine ⟨hb, ?_, ?_⟩
  · intro p hp
    have h : extractOne C t = (some p, (extractOne C t).2) := by rw [← hp]
    exact (extractOne_shape C t p _ h).1
  · intro hn
    rw [hb, hn]
    simp

/-- C10 witness: a successful element appends its one complete record; a
failing element leaves the accumulator unchanged. -/
theorem C10_per_post_atomicity_witness :
    (extractBatch Cid ([elemBad] ++ [elemA])).1 =
      (extractBatch Cid [elemBad]).1 ++ ((extractOne Cid elemA).1).toList ∧
    Cid.classify tweetA.trans_content =
      some (tweetA.sentiment, tweetA.sentiment_score) ∧
    (extractBatch Ccfail ([elemA] ++ [elemBad])).1 =
      (extractBatch Ccfail [elemA]).1 :=
  ⟨(C10_per_post_atomicity Cid [elemBad] elemA).1,
   (C10_per_post_atomicity Cid [] elemA).2.1 tweetA (by decide),
   (C10_per_post_atomicity Ccfail [elemA] elemBad).2.2 (by decide)⟩
